import Mathlib

/-!
Verification development for the IntelliFlow SupportFlow message-processing
pipeline.  The Python sources under `src/` are shallowly embedded below:
pure helpers become Lean functions, the orchestrator's effects on the
database become explicit state passing over a `Db` record, Python `float`
is modelled by `ℚ`, Python `int` by `ℤ`, exceptions by `Except`.
External primitives (the JSON library, `float(str)`, ISO timestamp
formatting, the remote LLM call, wall-clock randomness) are parameters of
the embedded functions.
-/

/-- A single-quote character, used when reproducing Python f-strings that
contain literal quotes. -/
def squote : String := String.singleton (Char.ofNat 39)

/-- Python `str.lower()` (per-character lowercasing). -/
def pyLower (s : String) : String := ⟨s.data.map Char.toLower⟩

/-- Python `needle in hay` on strings: substring containment. -/
def pyContains (hay needle : String) : Bool :=
  decide (needle.toList <:+: hay.toList)

/-- Python `str.split()` with no separator: split on whitespace runs,
dropping empty pieces. -/
def pyWords (s : String) : List String :=
  (s.split Char.isWhitespace).filter (fun w => w ≠ "")

/-- Python `str.strip()`. -/
def pyStrip (s : String) : String := s.trim

/-- `BaseAgent._truncate` from `src/src/agents/base_agent.py`. -/
def truncate (text : String) (max_length : Nat) : String :=
  if text.length ≤ max_length then text
  else (text.take (max_length - 3)) ++ "..."

/-- `MessageCategory` from `src/src/utils/enums.py`. -/
inductive MessageCategory where
  | POSITIVE
  | NEGATIVE
  | QUERY
deriving DecidableEq, Repr

/-- The `.value` string of a `MessageCategory` member. -/
def MessageCategory.value : MessageCategory → String
  | .POSITIVE => "positive"
  | .NEGATIVE => "negative"
  | .QUERY => "query"

/-- Python `MessageCategory(value)`: the member whose value equals the
string, or failure (`ValueError`). -/
def MessageCategory.fromValue (s : String) : Option MessageCategory :=
  if s = "positive" then some .POSITIVE
  else if s = "negative" then some .NEGATIVE
  else if s = "query" then some .QUERY
  else none

/-- `TicketStatus` from `src/src/utils/enums.py`. -/
inductive TicketStatus where
  | OPEN
  | IN_PROGRESS
  | RESOLVED
  | CLOSED
  | ESCALATED
deriving DecidableEq, Repr

/-- The `.value` string of a `TicketStatus` member. -/
def TicketStatus.value : TicketStatus → String
  | .OPEN => "open"
  | .IN_PROGRESS => "in_progress"
  | .RESOLVED => "resolved"
  | .CLOSED => "closed"
  | .ESCALATED => "escalated"

/-- Python `TicketStatus(value)`. -/
def TicketStatus.fromValue (s : String) : Option TicketStatus :=
  if s = "open" then some .OPEN
  else if s = "in_progress" then some .IN_PROGRESS
  else if s = "resolved" then some .RESOLVED
  else if s = "closed" then some .CLOSED
  else if s = "escalated" then some .ESCALATED
  else none

/-- `TicketPriority` from `src/src/utils/enums.py` (1 = highest). -/
inductive TicketPriority where
  | CRITICAL
  | HIGH
  | MEDIUM
  | LOW
  | MINIMAL
deriving DecidableEq, Repr

/-- The integer `.value` of a `TicketPriority` member. -/
def TicketPriority.value : TicketPriority → Int
  | .CRITICAL => 1
  | .HIGH => 2
  | .MEDIUM => 3
  | .LOW => 4
  | .MINIMAL => 5

/-- Python `TicketPriority(value)`. -/
def TicketPriority.fromValue (n : Int) : Option TicketPriority :=
  if n = 1 then some .CRITICAL
  else if n = 2 then some .HIGH
  else if n = 3 then some .MEDIUM
  else if n = 4 then some .LOW
  else if n = 5 then some .MINIMAL
  else none

/-- `AuditAction` from `src/src/utils/enums.py`. -/
inductive AuditAction where
  | CLASSIFY
  | ROUTE
  | RESPOND
  | ESCALATE
  | CREATE_TICKET
  | UPDATE_TICKET
deriving DecidableEq, Repr

/-- The `.value` string of an `AuditAction` member. -/
def AuditAction.value : AuditAction → String
  | .CLASSIFY => "classify"
  | .ROUTE => "route"
  | .RESPOND => "respond"
  | .ESCALATE => "escalate"
  | .CREATE_TICKET => "create_ticket"
  | .UPDATE_TICKET => "update_ticket"

/-- A parsed JSON value, standing for the objects Python's `json.loads`
returns (numbers collapsed to `ℚ`). -/
inductive Json where
  | null
  | bool (b : Bool)
  | num (q : ℚ)
  | str (s : String)
  | arr (elems : List Json)
  | obj (fields : List (String × Json))

/-- Python `dict.get(key, default)` over an association-list model of a
dict (first binding wins, as dict keys are unique). -/
def dictGet (fields : List (String × Json)) (key : String) (default : Json) : Json :=
  match fields.lookup key with
  | some v => v
  | none => default

/-- Python `d[key] = v` on an association-list model of a dict: replace
the existing binding in place, else append. -/
def dictSet (fields : List (String × Json)) (key : String) (v : Json) : List (String × Json) :=
  if (fields.lookup key).isSome then
    fields.map (fun kv => if kv.1 = key then (key, v) else kv)
  else fields ++ [(key, v)]

/-- `Policy` from `src/src/services/policy_service.py`. -/
structure Policy where
  id : String
  title : String
  content : String
  category : String
deriving DecidableEq, Repr

/-- `PolicyService.KEYWORD_MAPPINGS` from
`src/src/services/policy_service.py`, in source order. -/
def KEYWORD_MAPPINGS : List (String × List String) := [
  ("card replacement", ["POLICY-001"]),
  ("new card", ["POLICY-001"]),
  ("replace card", ["POLICY-001"]),
  ("lost card", ["POLICY-002"]),
  ("stolen card", ["POLICY-002"]),
  ("card stolen", ["POLICY-002"]),
  ("dispute", ["POLICY-003"]),
  ("disputed charge", ["POLICY-003"]),
  ("unauthorized charge", ["POLICY-003"]),
  ("chargeback", ["POLICY-003"]),
  ("atm limit", ["POLICY-004"]),
  ("withdrawal limit", ["POLICY-004"]),
  ("transaction limit", ["POLICY-004"]),
  ("spending limit", ["POLICY-004"]),
  ("maintenance fee", ["POLICY-005", "POLICY-006"]),
  ("monthly fee", ["POLICY-005", "POLICY-006"]),
  ("waive fee", ["POLICY-006"]),
  ("fee waiver", ["POLICY-006"]),
  ("overdraft", ["POLICY-007"]),
  ("nsf", ["POLICY-007"]),
  ("insufficient funds", ["POLICY-007"]),
  ("close account", ["POLICY-008"]),
  ("account closure", ["POLICY-008"]),
  ("wire transfer", ["POLICY-009"]),
  ("wire", ["POLICY-009"]),
  ("international transfer", ["POLICY-009"]),
  ("ach", ["POLICY-010"]),
  ("transfer time", ["POLICY-010"]),
  ("bill pay", ["POLICY-011"]),
  ("late payment", ["POLICY-011"]),
  ("interest rate", ["POLICY-012"]),
  ("savings rate", ["POLICY-012"]),
  ("cd", ["POLICY-013"]),
  ("certificate of deposit", ["POLICY-013"]),
  ("early withdrawal", ["POLICY-013"]),
  ("fraud", ["POLICY-014", "POLICY-002"]),
  ("fraudulent", ["POLICY-014"]),
  ("unauthorized", ["POLICY-014", "POLICY-002", "POLICY-003"]),
  ("locked out", ["POLICY-015"]),
  ("account locked", ["POLICY-015"]),
  ("login", ["POLICY-015"]),
  ("two factor", ["POLICY-016"]),
  ("2fa", ["POLICY-016"]),
  ("verification", ["POLICY-016"]),
  ("complaint", ["POLICY-017"]),
  ("response time", ["POLICY-017"]),
  ("branch hours", ["POLICY-018"]),
  ("hours", ["POLICY-018"]),
  ("statement", ["POLICY-019"]),
  ("bank statement", ["POLICY-019"]),
  ("power of attorney", ["POLICY-020"]),
  ("poa", ["POLICY-020"])]

/-- The loaded-policy table `self.policies` of a `PolicyService`: an
insertion-ordered dict from policy id to `Policy`. -/
abbrev PolicyTable := List (String × Policy)

/-- The secondary content-based test in `PolicyService.search_policies`:
some message word longer than 4 characters occurs inside the lowercased
policy body. -/
def bodyMatch (message_lower : String) (p : Policy) : Bool :=
  (pyWords message_lower).any (fun w => w.length > 4 && pyContains (pyLower p.content) w)

/-- The title-overlap test in `PolicyService.search_policies`: the message
shares at least one word with the lowercased policy title. -/
def titleMatch (message_lower : String) (p : Policy) : Bool :=
  (pyWords message_lower).any (fun w => (pyWords (pyLower p.title)).contains w)

/-- The set of policy ids accumulated by `PolicyService.search_policies`
(`found_policy_ids`), produced by the two imperative loops over
`KEYWORD_MAPPINGS` and `self.policies.items()`. -/
def found_policy_ids (policies : PolicyTable) (message_lower : String) : Finset String :=
  let base := KEYWORD_MAPPINGS.foldl
    (fun s kv => if pyContains message_lower kv.1 then s ∪ kv.2.toFinset else s) ∅
  policies.foldl
    (fun s pp =>
      if bodyMatch message_lower pp.2 then
        if pp.1 ∉ s then
          if titleMatch message_lower pp.2 then s ∪ {pp.1} else s
        else s
      else s)
    base

/-- `PolicyService.search_policies` from
`src/src/services/policy_service.py`: keyword-table and content matches,
deduplicated, sorted by id, looked up among loaded policies, truncated. -/
def search_policies (policies : PolicyTable) (message : String) (max_results : Nat := 3) : List Policy :=
  let message_lower := pyLower message
  let ids := (found_policy_ids policies message_lower).sort (· ≤ ·)
  ((ids.filterMap (fun pid => policies.lookup pid)).take max_results)

/-- Spec-level reading of clause (a) of the search contract: union of the
keyword-table matches for keywords contained in the lowercased message. -/
def keywordMatchIds (message_lower : String) : Finset String :=
  KEYWORD_MAPPINGS.foldr
    (fun kv acc => if pyContains message_lower kv.1 then kv.2.toFinset ∪ acc else acc) ∅

/-- Spec-level reading of the full relevant-id set: keyword matches
unioned with the loaded policies passing the secondary body/title
heuristic. -/
def relevantIds (policies : PolicyTable) (message_lower : String) : Finset String :=
  keywordMatchIds message_lower ∪
    (policies.filter (fun pp => bodyMatch message_lower pp.2 && titleMatch message_lower pp.2)).foldr
      (fun pp acc => insert pp.1 acc) ∅

/-- `HandlerResponse` from `src/src/agents/negative_handler.py` (the same
dataclass is repeated in the three handler modules). -/
structure HandlerResponse where
  response : String
  priority : TicketPriority
  requires_escalation : Bool := false
  escalation_reason : Option String := none
  cited_policies : List Policy := []

/-- `PolicyService.format_policies_for_prompt`. -/
def format_policies_for_prompt (policies : List Policy) : String :=
  if policies = [] then ""
  else "\n".intercalate
    ("[Relevant Bank Policies - cite these in your response:]" ::
      policies.foldr (fun p acc => ("\n" ++ p.id ++ " (" ++ p.title ++ "):") :: p.content :: acc) [])

namespace NegativeHandler

/-- `NegativeHandler.ESCALATION_KEYWORDS`. -/
def ESCALATION_KEYWORDS : List String :=
  ["fraud", "unauthorized", "stolen", "lawsuit", "lawyer", "attorney",
   "legal", "sue", "compensation", "report", "authorities", "police",
   "security breach", "identity theft"]

/-- `NegativeHandler._check_escalation`: first escalation keyword found in
the lowercased message, with its citation string. -/
def check_escalation (message : String) : Bool × Option String :=
  match ESCALATION_KEYWORDS.find? (fun keyword => pyContains (pyLower message) keyword) with
  | some keyword =>
      (true, some ("Message contains escalation trigger: " ++ squote ++ keyword ++ squote))
  | none => (false, none)

/-- `high_priority_keywords` local to `NegativeHandler._determine_priority`. -/
def high_priority_keywords : List String :=
  ["urgent", "immediately", "asap", "emergency", "cannot access",
   "locked out", "missing money", "large amount"]

/-- `NegativeHandler._determine_priority`. -/
def determine_priority (message : String) (escalation_needed : Bool) : TicketPriority :=
  if escalation_needed then .CRITICAL
  else if high_priority_keywords.any (fun keyword => pyContains (pyLower message) keyword) then .HIGH
  else .HIGH

/-- The message actually sent to the model by `NegativeHandler.process`:
the customer message, with formatted policy context appended when the
policy search found anything. -/
def enhanced_message (policies : PolicyTable) (message : String) : String :=
  let policy_context := format_policies_for_prompt (search_policies policies message)
  if policy_context ≠ "" then message ++ "\n\n" ++ policy_context else message

/-- The `HandlerResponse` built by `NegativeHandler.process` once the
model call returned `llmContent`. -/
def processResult (policies : PolicyTable) (llmContent : String) (message : String) : HandlerResponse :=
  let ce := check_escalation message
  { response := llmContent
    priority := determine_priority message ce.1
    requires_escalation := ce.1
    escalation_reason := ce.2
    cited_policies := search_policies policies message }

end NegativeHandler

namespace QueryHandler

/-- `higher_priority_keywords` local to `QueryHandler._determine_priority`. -/
def higher_priority_keywords : List String :=
  ["how do i transfer", "wire transfer", "international", "investment",
   "mortgage", "loan application", "account opening"]

/-- `QueryHandler._determine_priority`. -/
def determine_priority (message : String) : TicketPriority :=
  if higher_priority_keywords.any (fun keyword => pyContains (pyLower message) keyword) then .MEDIUM
  else .LOW

/-- The `HandlerResponse` built by `QueryHandler.process` once the model
call returned `llmContent`. -/
def processResult (policies : PolicyTable) (llmContent : String) (message : String) : HandlerResponse :=
  { response := llmContent
    priority := determine_priority message
    requires_escalation := false
    escalation_reason := none
    cited_policies := search_policies policies message }

end QueryHandler

namespace PositiveHandler

/-- The `HandlerResponse` built by `PositiveHandler.process` once the
model call returned `llmContent`. -/
def processResult (llmContent : String) : HandlerResponse :=
  { response := llmContent
    priority := .MINIMAL
    requires_escalation := false
    escalation_reason := none
    cited_policies := [] }

end PositiveHandler

/-- `ClassificationResult` from `src/src/agents/classifier_agent.py`.
`reasoning` keeps the raw JSON value, as the Python code stores whatever
object `data.get("reasoning", ...)` returned. -/
structure ClassificationResult where
  category : MessageCategory
  confidence : ℚ
  reasoning : Json

/-- The observable payload of a raised `ClassificationError`: its message
and the `raw_response` detail. -/
structure ClassificationErrorData where
  message : String
  raw_response : String

/-- The cleaning step of `ClassifierAgent._parse_response`: strip, then
drop surrounding code-fence lines when the text starts with a fence and
has more than two lines. -/
def cleanContent (content : String) : String :=
  let cleaned := pyStrip content
  if cleaned.startsWith "```" then
    let lines := cleaned.splitOn "\n"
    if lines.length > 2 then "\n".intercalate ((lines.drop 1).dropLast) else cleaned
  else cleaned

/-- Python `float(x)` applied to a JSON-decoded value; conversion of a
string delegates to the abstract `strToFloat` primitive. -/
def pyFloat (strToFloat : String → Except String ℚ) : Json → Except String ℚ
  | .num q => .ok q
  | .bool b => .ok (if b then 1 else 0)
  | .str s => strToFloat s
  | .null => .error "float() argument must not be None"
  | .arr _ => .error "float() argument must not be a list"
  | .obj _ => .error "float() argument must not be a dict"

/-- `ClassifierAgent._parse_response` from
`src/src/agents/classifier_agent.py`.  `jsonLoads` stands for
`json.loads` (errors are `JSONDecodeError` messages); any exception inside
the `try` block other than the decode error is re-wrapped with the
`Classification failed:` prefix, exactly as the generic handler does. -/
def parse_response (jsonLoads : String → Except String Json)
    (strToFloat : String → Except String ℚ) (content : String) :
    Except ClassificationErrorData ClassificationResult :=
  let cleaned := cleanContent content
  match jsonLoads cleaned with
  | .error e => .error ⟨"Failed to parse classification response: " ++ e, content⟩
  | .ok (.obj fields) =>
    match dictGet fields "category" (.str "") with
    | .str s =>
      let category_str := pyLower s
      match MessageCategory.fromValue category_str with
      | none => .error ⟨"Classification failed: Invalid category: " ++ category_str, content⟩
      | some category =>
        match pyFloat strToFloat (dictGet fields "confidence" (.num (1/2))) with
        | .error e => .error ⟨"Classification failed: " ++ e, content⟩
        | .ok c =>
          .ok { category := category
                confidence := max 0 (min 1 c)
                reasoning := dictGet fields "reasoning" (.str "No reasoning provided") }
    | _ => .error ⟨"Classification failed: attribute error on category value", content⟩
  | .ok _ => .error ⟨"Classification failed: attribute error on parsed value", content⟩

/-- `LLMResponse` from `src/src/llm/client.py` (the fields the pipeline
consumes). -/
structure LLMResponse where
  content : String
  model : String
  provider : String
  input_tokens : ℤ
  output_tokens : ℤ
  cached_tokens : ℤ := 0

/-- `ModelPricing` from `src/src/db/models.py` (costs as `ℚ`). -/
structure ModelPricing where
  model_name : String
  provider : String
  input_cost_per_1k : ℚ
  output_cost_per_1k : ℚ
  cached_input_cost_per_1k : ℚ := 0

/-- `TokenUsage` from `src/src/db/models.py`. -/
structure TokenUsage where
  ticket_id : String
  agent_name : String
  model_name : String
  provider : String
  input_tokens : ℤ
  output_tokens : ℤ
  input_cost_usd : ℚ := 0
  output_cost_usd : ℚ := 0
  cached_tokens : ℤ := 0

/-- `AuditLog` from `src/src/db/models.py`.  Wall-clock duration is
abstracted to `0`, and the generated row id / creation timestamp are
omitted: no verified claim observes them. -/
structure AuditLog where
  ticket_id : String
  agent_name : String
  action : AuditAction
  input_summary : String
  output_summary : String
  decision_reasoning : Option Json := none
  confidence_score : Option ℚ := none
  duration_ms : ℤ := 0
  success : Bool := true
  error_message : Option String := none

/-- `Ticket` from `src/src/db/models.py`.  Timestamps are abstract `ℤ`
instants, metadata is an insertion-ordered dict. -/
structure Ticket where
  customer_id : String
  customer_message : String
  category : MessageCategory
  status : TicketStatus := .OPEN
  priority : TicketPriority := .MEDIUM
  agent_response : Option String := none
  handler_agent : Option String := none
  metadata : List (String × Json) := []
  id : String
  created_at : ℤ
  updated_at : ℤ
  resolved_at : Option ℤ := none

/-- The persistent store: the four tables of the relational schema, with
rows kept as snapshot values (a `to_dict` at write time materializes the
row, so later in-memory mutation cannot leak in). -/
structure Db where
  tickets : List Ticket := []
  audits : List AuditLog := []
  usage : List TokenUsage := []
  pricing : List ModelPricing := []

/-- `TokenTracker.track_usage` from `src/src/llm/token_tracker.py`.  The
pricing lookup models `_get_pricing` against a static `model_pricing`
table (the in-memory cache is transparent for a table that does not
change during a run). -/
def track_usage (db : Db) (ticket_id agent_name : String) (response : LLMResponse) :
    TokenUsage × Db :=
  let pricing := db.pricing.find? (fun p => p.model_name = response.model)
  let costs : ℚ × ℚ :=
    match pricing with
    | some p =>
      let regular_input_tokens : ℤ := response.input_tokens - response.cached_tokens
      let cached_input_cost := ((response.cached_tokens : ℚ) / 1000) * p.cached_input_cost_per_1k
      let regular_input_cost := ((regular_input_tokens : ℚ) / 1000) * p.input_cost_per_1k
      (regular_input_cost + cached_input_cost,
        ((response.output_tokens : ℚ) / 1000) * p.output_cost_per_1k)
    | none => (0, 0)
  let usage : TokenUsage :=
    { ticket_id, agent_name,
      model_name := response.model, provider := response.provider,
      input_tokens := response.input_tokens, output_tokens := response.output_tokens,
      input_cost_usd := costs.1, output_cost_usd := costs.2,
      cached_tokens := response.cached_tokens }
  (usage, { db with usage := db.usage ++ [usage] })

/-- `UsageRepository.get_total_cost_by_ticket`:
`SUM(input_cost_usd + output_cost_usd)` over the ticket's usage rows
(`0.0` when the sum is NULL or zero). -/
def get_ticket_cost (db : Db) (ticket_id : String) : ℚ :=
  ((db.usage.filter (fun u => u.ticket_id = ticket_id)).map
    (fun u => u.input_cost_usd + u.output_cost_usd)).sum

/-- `BaseAgent.call_llm` from `src/src/agents/base_agent.py`, together
with the `AuditService.track_action` context manager it runs under: on
success one usage row then one success audit entry; on a raised provider
error one failure audit entry and the exception re-raised. -/
def call_llm (db : Db) (agent_name ticket_id user_message : String) (action : AuditAction)
    (outcome : Except String LLMResponse) : Except String LLMResponse × Db :=
  match outcome with
  | .ok response =>
    let db1 := (track_usage db ticket_id agent_name response).2
    let entry : AuditLog :=
      { ticket_id, agent_name, action,
        input_summary := truncate user_message 200,
        output_summary := truncate response.content 200,
        success := true }
    (.ok response, { db1 with audits := db1.audits ++ [entry] })
  | .error e =>
    let entry : AuditLog :=
      { ticket_id, agent_name, action,
        input_summary := truncate user_message 200,
        output_summary := "Error: " ++ e,
        success := false,
        error_message := some e }
    (.error e, { db with audits := db.audits ++ [entry] })

/-- A Python exception reaching the orchestrator, split as the code
splits it: an injected `ChaosError` versus everything else (carrying
`str(e)`). -/
inductive PyErr where
  | chaos (component : String) (msg : String)
  | other (text : String)
deriving DecidableEq, Repr

/-- `str(e)` of a modelled exception (`ChaosError.__init__` builds the
`[CHAOS] component: message` text). -/
def PyErr.text : PyErr → String
  | .chaos component msg => "[CHAOS] " ++ component ++ ": " ++ msg
  | .other t => t

/-- `ClassifierAgent.process` from `src/src/agents/classifier_agent.py`:
one model call (with its usage/audit effects), parse, then the explicit
classification audit entry. -/
def classifierProcess (jsonLoads : String → Except String Json)
    (strToFloat : String → Except String ℚ)
    (llmOutcome : Except String LLMResponse)
    (db : Db) (ticket_id message : String) :
    Except PyErr ClassificationResult × Db :=
  match call_llm db "classifier" ticket_id message .CLASSIFY llmOutcome with
  | (.error e, db1) => (.error (.other e), db1)
  | (.ok response, db1) =>
    match parse_response jsonLoads strToFloat response.content with
    | .error err => (.error (.other err.message), db1)
    | .ok result =>
      let entry : AuditLog :=
        { ticket_id, agent_name := "classifier", action := .CLASSIFY,
          input_summary := truncate message 200,
          output_summary := "category=" ++ result.category.value,
          decision_reasoning := some result.reasoning,
          confidence_score := some result.confidence,
          success := true }
      (.ok result, { db1 with audits := db1.audits ++ [entry] })

/-- Python `str.upper()`. -/
def pyUpper (s : String) : String := ⟨s.data.map Char.toUpper⟩

/-- `TicketService.create_ticket` backed by `TicketRepository.create`:
build the ticket with defaults and insert its snapshot. -/
def create_ticket (db : Db) (newId : String) (tNow : ℤ)
    (customer_id customer_message : String) (category : MessageCategory) : Ticket × Db :=
  let ticket : Ticket :=
    { customer_id, customer_message, category,
      status := .OPEN, priority := .MEDIUM, metadata := [],
      id := newId, created_at := tNow, updated_at := tNow, resolved_at := none }
  (ticket, { db with tickets := db.tickets ++ [ticket] })

/-- `TicketRepository.update`: refresh `updated_at` on the in-memory
ticket, then overwrite the row with the matching id. -/
def update_ticket (db : Db) (ticket : Ticket) (tNow : ℤ) : Ticket × Db :=
  let updated := { ticket with updated_at := tNow }
  (updated,
    { db with tickets := db.tickets.map (fun t => if t.id = updated.id then updated else t) })

/-- `TicketRepository.get_by_id`: lookup or `TicketNotFoundError`. -/
def get_by_id (db : Db) (ticket_id : String) : Except PyErr Ticket :=
  match db.tickets.find? (fun t => t.id = ticket_id) with
  | some t => .ok t
  | none => .error (.other ("Ticket not found: " ++ ticket_id))

/-- `TicketRepository.get_by_customer`: the customer's rows ordered by
`created_at` descending. -/
def get_by_customer (db : Db) (customer_id : String) : List Ticket :=
  (db.tickets.filter (fun t => t.customer_id = customer_id)).insertionSort
    (fun a b => b.created_at ≤ a.created_at)

/-- `QueryHandler._get_customer_context`: previous tickets of the same
customer (current one excluded, five most recent) formatted as a context
block. -/
def QueryHandler.get_customer_context (db : Db) (ticket : Ticket) : String :=
  let previous_tickets := get_by_customer db ticket.customer_id
  let history := (previous_tickets.filter (fun t => t.id ≠ ticket.id)).take 5
  if history.isEmpty then ""
  else "\n".intercalate
    ("[Previous interactions with this customer:]" ::
      history.map (fun prev =>
        "- [" ++ pyUpper prev.category.value ++ "] " ++ prev.customer_message.take 100 ++
          "..." ++ " (Status: " ++ prev.status.value ++ ")"))

/-- The message `QueryHandler.process` sends to the model: customer
history and policy context blocks, then the current query. -/
def QueryHandler.enhanced_message (policies : PolicyTable) (db : Db) (ticket : Ticket)
    (message : String) : String :=
  let customer_context := QueryHandler.get_customer_context db ticket
  let policy_context := format_policies_for_prompt (search_policies policies message)
  let context_parts :=
    (if customer_context ≠ "" then [customer_context] else []) ++
      (if policy_context ≠ "" then [policy_context] else [])
  if context_parts ≠ [] then
    "\n\n".intercalate context_parts ++ "\n\n[Current query:]\n" ++ message
  else message

/-- The `name` property of the handler selected for a category
(`Orchestrator.handlers` dispatch table). -/
def handlerName : MessageCategory → String
  | .POSITIVE => "positive_handler"
  | .NEGATIVE => "negative_handler"
  | .QUERY => "query_handler"

/-- The selected handler's `process` call as run by the orchestrator:
context/policy enrichment, one model call with its effects, and the pure
`HandlerResponse` construction. -/
def handlerProcess (policies : PolicyTable) (llmOutcome : Except String LLMResponse)
    (db : Db) (category : MessageCategory) (ticket_id message : String) :
    Except PyErr HandlerResponse × Db :=
  match category with
  | .POSITIVE =>
    match call_llm db "positive_handler" ticket_id message .RESPOND llmOutcome with
    | (.error e, db1) => (.error (.other e), db1)
    | (.ok r, db1) => (.ok (PositiveHandler.processResult r.content), db1)
  | .NEGATIVE =>
    let user_message := NegativeHandler.enhanced_message policies message
    match call_llm db "negative_handler" ticket_id user_message .RESPOND llmOutcome with
    | (.error e, db1) => (.error (.other e), db1)
    | (.ok r, db1) => (.ok (NegativeHandler.processResult policies r.content message), db1)
  | .QUERY =>
    match get_by_id db ticket_id with
    | .error e => (.error e, db)
    | .ok ticket =>
      let user_message := QueryHandler.enhanced_message policies db ticket message
      match call_llm db "query_handler" ticket_id user_message .RESPOND llmOutcome with
      | (.error e, db1) => (.error (.other e), db1)
      | (.ok r, db1) => (.ok (QueryHandler.processResult policies r.content message), db1)

/-- One run's fault-injection plan: for each named chaos point, `some
failure_message` when the uniform draw lands below 0.3 (together with the
randomly chosen message), `none` otherwise. -/
structure ChaosPlan where
  ticketSvc : Option String := none
  classifier : Option String := none
  router : Option String := none
  handler : Option String := none
  database : Option String := none

/-- `Orchestrator._maybe_trigger_chaos`: raise `ChaosError` when chaos
mode is on and the draw for this component fired. -/
def maybe_trigger_chaos (chaos_mode : Bool) (draw : Option String) (component : String) :
    Except PyErr Unit :=
  match chaos_mode, draw with
  | true, some failure_message => .error (.chaos component failure_message)
  | _, _ => .ok ()

/-- The nondeterministic environment of one `process_message` run: the
chaos draws, the outcomes of the two external model calls, the generated
ticket id and the three wall-clock instants used. -/
structure Env where
  chaos : ChaosPlan := {}
  classifierLLM : Except String LLMResponse
  handlerLLM : Except String LLMResponse
  newId : String
  tCreate : ℤ := 0
  tUpd1 : ℤ := 0
  tUpd2 : ℤ := 0

/-- `ProcessingResult` from `src/src/agents/orchestrator.py`. -/
structure ProcessingResult where
  ticket : Ticket
  classification : ClassificationResult
  response : String
  handler_used : String
  requires_escalation : Bool := false
  escalation_reason : Option String := none
  cited_policies : List Policy := []

/-- The failure audit entry the orchestrator's generic `except` handler
writes before re-raising. -/
def orchestratorFailEntry (ticket_id err_text : String) : AuditLog :=
  { ticket_id, agent_name := "orchestrator", action := .RESPOND,
    input_summary := "Processing message for ticket " ++ ticket_id,
    output_summary := "Processing failed",
    success := false, error_message := some err_text }

/-- The routing-decision audit entry written in step 3 of
`Orchestrator.process_message`. -/
def routeEntry (ticket_id : String) (classification : ClassificationResult) : AuditLog :=
  { ticket_id, agent_name := "orchestrator", action := .ROUTE,
    input_summary := "category=" ++ classification.category.value,
    output_summary := "handler=" ++ handlerName classification.category,
    decision_reasoning :=
      some (.str ("Routing to " ++ handlerName classification.category ++
        " based on classification")),
    confidence_score := some classification.confidence,
    success := true }

/-- Python `None`-aware injection of an optional string into a stored
JSON value. -/
def jsonOfOptionStr : Option String → Json
  | some s => .str s
  | none => .null

/-- The `try` body of `Orchestrator.process_message` (everything after
ticket creation), propagating the first raised exception. -/
def process_message_inner (jsonLoads : String → Except String Json)
    (strToFloat : String → Except String ℚ) (policies : PolicyTable)
    (env : Env) (chaos_mode : Bool) (db1 : Db) (ticket0 : Ticket) (message : String) :
    Except PyErr ProcessingResult × Db :=
  match maybe_trigger_chaos chaos_mode env.chaos.ticketSvc "TicketService" with
  | .error e => (.error e, db1)
  | .ok _ =>
  match maybe_trigger_chaos chaos_mode env.chaos.classifier "Classifier" with
  | .error e => (.error e, db1)
  | .ok _ =>
  match classifierProcess jsonLoads strToFloat env.classifierLLM db1 ticket0.id message with
  | (.error e, db2) => (.error e, db2)
  | (.ok classification, db2) =>
    let t1 : Ticket :=
      { ticket0 with
        category := classification.category,
        metadata :=
          dictSet
            (dictSet ticket0.metadata "classification_confidence" (.num classification.confidence))
            "classification_reasoning" classification.reasoning }
    match update_ticket db2 t1 env.tUpd1 with
    | (t1u, db3) =>
    match maybe_trigger_chaos chaos_mode env.chaos.router "Router" with
    | .error e => (.error e, db3)
    | .ok _ =>
    let db4 := { db3 with audits := db3.audits ++ [routeEntry ticket0.id classification] }
    match maybe_trigger_chaos chaos_mode env.chaos.handler (handlerName classification.category) with
    | .error e => (.error e, db4)
    | .ok _ =>
    match handlerProcess policies env.handlerLLM db4 classification.category ticket0.id message with
    | (.error e, db5) => (.error e, db5)
    | (.ok handler_response, db5) =>
      let t2 : Ticket :=
        { t1u with
          agent_response := some handler_response.response,
          handler_agent := some (handlerName classification.category),
          priority := handler_response.priority,
          status := if handler_response.requires_escalation then .ESCALATED else .RESOLVED,
          metadata :=
            if handler_response.requires_escalation then
              dictSet t1u.metadata "escalation_reason"
                (jsonOfOptionStr handler_response.escalation_reason)
            else t1u.metadata }
      match maybe_trigger_chaos chaos_mode env.chaos.database "Database" with
      | .error e => (.error e, db5)
      | .ok _ =>
      match update_ticket db5 t2 env.tUpd2 with
      | (t2u, db6) =>
        let total_cost := get_ticket_cost db6 ticket0.id
        let tFinal : Ticket :=
          { t2u with metadata := dictSet t2u.metadata "total_cost_usd" (.num total_cost) }
        (.ok { ticket := tFinal, classification,
               response := handler_response.response,
               handler_used := handlerName classification.category,
               requires_escalation := handler_response.requires_escalation,
               escalation_reason := handler_response.escalation_reason,
               cited_policies := handler_response.cited_policies }, db6)

/-- `Orchestrator.process_message` from `src/src/agents/orchestrator.py`:
ticket creation, the `try` body, and the two `except` arms (`ChaosError`
re-raised bare; any other exception logged once as an orchestrator
failure entry, then re-raised). -/
def process_message (jsonLoads : String → Except String Json)
    (strToFloat : String → Except String ℚ) (policies : PolicyTable)
    (env : Env) (customer_id message : String) (chaos_mode : Bool) (db : Db) :
    Except PyErr ProcessingResult × Db :=
  match create_ticket db env.newId env.tCreate customer_id message .QUERY with
  | (ticket, db1) =>
    match process_message_inner jsonLoads strToFloat policies env chaos_mode db1 ticket message with
    | (.ok r, db2) => (.ok r, db2)
    | (.error (.chaos c m), db2) => (.error (.chaos c m), db2)
    | (.error (.other t), db2) =>
        (.error (.other t), { db2 with audits := db2.audits ++ [orchestratorFailEntry ticket.id t] })

/-- The `tickets` database row shape produced by `Ticket.to_dict` in
`src/src/db/models.py`. -/
structure TicketRow where
  id : String
  customer_id : String
  customer_message : String
  category : String
  status : String
  priority : Int
  agent_response : Option String
  handler_agent : Option String
  metadata : String
  created_at : String
  updated_at : String
  resolved_at : Option String

/-- `Ticket.to_dict` from `src/src/db/models.py`.  `jdumps` stands for
`json.dumps`, `iso` for `datetime.isoformat`. -/
def Ticket.to_dict (jdumps : List (String × Json) → String) (iso : ℤ → String)
    (t : Ticket) : TicketRow :=
  { id := t.id, customer_id := t.customer_id, customer_message := t.customer_message,
    category := t.category.value, status := t.status.value, priority := t.priority.value,
    agent_response := t.agent_response, handler_agent := t.handler_agent,
    metadata := jdumps t.metadata,
    created_at := iso t.created_at, updated_at := iso t.updated_at,
    resolved_at := t.resolved_at.map iso }

/-- `Ticket.from_dict` from `src/src/db/models.py`.  `jloads` stands for
`json.loads`, `fromiso` for `datetime.fromisoformat`; an enum value the
enums do not recognise raises (`none`). -/
def Ticket.from_dict (jloads : String → List (String × Json)) (fromiso : String → ℤ)
    (row : TicketRow) : Option Ticket :=
  match MessageCategory.fromValue row.category, TicketStatus.fromValue row.status,
      TicketPriority.fromValue row.priority with
  | some category, some status, some priority =>
      some { id := row.id, customer_id := row.customer_id,
             customer_message := row.customer_message,
             category, status, priority,
             agent_response := row.agent_response, handler_agent := row.handler_agent,
             metadata := if row.metadata ≠ "" then jloads row.metadata else [],
             created_at := fromiso row.created_at, updated_at := fromiso row.updated_at,
             resolved_at :=
               match row.resolved_at with
               | some s => if s ≠ "" then some (fromiso s) else none
               | none => none }
  | _, _, _ => none

/-! Theorems. -/

/-- Claim C1: for every message, the `HandlerResponse` of
`NegativeHandler.process` escalates exactly when the lowercased message
contains an escalation trigger keyword as a substring, in which case the
escalation reason cites the matched keyword and the priority is
CRITICAL (value 1); without a trigger the response does not escalate and
the priority is HIGH (value 2) regardless of any high-priority keyword
match. -/
theorem negative_handler_escalation_spec (policies : PolicyTable) (llmContent message : String) :
    (((NegativeHandler.processResult policies llmContent message).requires_escalation = true) ↔
      ∃ k ∈ NegativeHandler.ESCALATION_KEYWORDS, pyContains (pyLower message) k = true)
    ∧ ((NegativeHandler.processResult policies llmContent message).requires_escalation = true →
        ∃ k ∈ NegativeHandler.ESCALATION_KEYWORDS, pyContains (pyLower message) k = true ∧
          (NegativeHandler.processResult policies llmContent message).escalation_reason =
            some ("Message contains escalation trigger: " ++ squote ++ k ++ squote) ∧
          (NegativeHandler.processResult policies llmContent message).priority =
            TicketPriority.CRITICAL)
    ∧ ((NegativeHandler.processResult policies llmContent message).requires_escalation = false →
        (NegativeHandler.processResult policies llmContent message).escalation_reason = none ∧
        (NegativeHandler.processResult policies llmContent message).priority = TicketPriority.HIGH)
    ∧ TicketPriority.value TicketPriority.CRITICAL = 1
    ∧ TicketPriority.value TicketPriority.HIGH = 2 := by
  unfold NegativeHandler.processResult NegativeHandler.check_escalation
    NegativeHandler.determine_priority
  cases h : NegativeHandler.ESCALATION_KEYWORDS.find?
      (fun keyword => pyContains (pyLower message) keyword) with
  | some k =>
    have hk : k ∈ NegativeHandler.ESCALATION_KEYWORDS := List.mem_of_find?_eq_some h
    have hp : pyContains (pyLower message) k = true := by
      simpa using List.find?_some h
    refine ⟨?_, ?_, ?_, rfl, rfl⟩
    · simpa using ⟨k, hk, hp⟩
    · intro _
      exact ⟨k, hk, hp, by simp, by simp⟩
    · intro hcontra
      simp at hcontra
  | none =>
    have hnone : ∀ k ∈ NegativeHandler.ESCALATION_KEYWORDS,
        ¬ pyContains (pyLower message) k = true := by
      intro k hk
      have := List.find?_eq_none.mp h k hk
      simpa using this
    refine ⟨?_, ?_, ?_, rfl, rfl⟩
    · simp only [Bool.false_eq_true, false_iff]
      rintro ⟨k, hk, hp⟩
      exact hnone k hk hp
    · intro hcontra
      simp at hcontra
    · intro _
      refine ⟨by simp, ?_⟩
      by_cases hany : (NegativeHandler.high_priority_keywords.any
          (fun keyword => pyContains (pyLower message) keyword)) = true <;> simp [hany]

/-- Concrete instantiation of C1: a message containing the trigger
`fraud` escalates; a trigger-free complaint stays HIGH. -/
theorem negative_handler_escalation_spec_witness :
    (NegativeHandler.processResult [] "ok" "I will report this fraud").requires_escalation = true ∧
    (NegativeHandler.processResult [] "ok" "the app is slow").priority = TicketPriority.HIGH := by
  constructor
  · exact (negative_handler_escalation_spec [] "ok" "I will report this fraud").1.mpr
      ⟨"fraud", by decide, by decide⟩
  · exact ((negative_handler_escalation_spec [] "ok" "the app is slow").2.2.1 (by decide)).2

/-- Claim C6: for every message, the `HandlerResponse` of
`QueryHandler.process` has priority MEDIUM (value 3) exactly when the
lowercased message contains one of the fixed higher-stakes phrases as a
substring, and LOW (value 4) otherwise; it never escalates. -/
theorem query_handler_priority_spec (policies : PolicyTable) (llmContent message : String) :
    (((QueryHandler.processResult policies llmContent message).priority = TicketPriority.MEDIUM) ↔
      ∃ k ∈ QueryHandler.higher_priority_keywords, pyContains (pyLower message) k = true)
    ∧ (((QueryHandler.processResult policies llmContent message).priority = TicketPriority.LOW) ↔
      ¬ ∃ k ∈ QueryHandler.higher_priority_keywords, pyContains (pyLower message) k = true)
    ∧ (QueryHandler.processResult policies llmContent message).requires_escalation = false
    ∧ (QueryHandler.processResult policies llmContent message).escalation_reason = none
    ∧ TicketPriority.value TicketPriority.MEDIUM = 3
    ∧ TicketPriority.value TicketPriority.LOW = 4 := by
  unfold QueryHandler.processResult QueryHandler.determine_priority
  by_cases hany : (QueryHandler.higher_priority_keywords.any
      (fun keyword => pyContains (pyLower message) keyword)) = true
  · have hex := List.any_eq_true.mp hany
    refine ⟨?_, ?_, rfl, rfl, rfl, rfl⟩
    · simpa [hany] using hex
    · simpa [hany] using hex
  · have hnex : ¬ ∃ k ∈ QueryHandler.higher_priority_keywords,
        pyContains (pyLower message) k = true := by
      intro hex
      exact hany (List.any_eq_true.mpr hex)
    refine ⟨?_, ?_, rfl, rfl, rfl, rfl⟩
    · simpa [hany] using hnex
    · simpa [hany] using hnex

/-- Concrete instantiation of C6: a wire-transfer query is MEDIUM, a
branch-hours query is LOW, and neither escalates. -/
theorem query_handler_priority_spec_witness :
    (QueryHandler.processResult [] "ok" "How does a wire transfer work").priority =
      TicketPriority.MEDIUM ∧
    (QueryHandler.processResult [] "ok" "What are your branch hours").priority =
      TicketPriority.LOW ∧
    (QueryHandler.processResult [] "ok" "What are your branch hours").requires_escalation =
      false := by
  refine ⟨?_, ?_, ?_⟩
  · exact (query_handler_priority_spec [] "ok" "How does a wire transfer work").1.mpr
      ⟨"wire transfer", by decide, by decide⟩
  · exact (query_handler_priority_spec [] "ok" "What are your branch hours").2.1.mpr
      (by decide)
  · exact (query_handler_priority_spec [] "ok" "What are your branch hours").2.2.1

/-- Claim C8: every tracked LLM response appends one persisted usage row
with the raw token counts; with a pricing row the input cost is
`(input − cached)/1000 × input_rate + cached/1000 × cached_rate` and the
output cost `output/1000 × output_rate`; without one both costs are
zero. -/
theorem track_usage_cost_spec (db : Db) (ticket_id agent_name : String) (response : LLMResponse) :
    ((track_usage db ticket_id agent_name response).2).usage =
      db.usage ++ [(track_usage db ticket_id agent_name response).1]
    ∧ ((track_usage db ticket_id agent_name response).1).input_tokens = response.input_tokens
    ∧ ((track_usage db ticket_id agent_name response).1).output_tokens = response.output_tokens
    ∧ ((track_usage db ticket_id agent_name response).1).cached_tokens = response.cached_tokens
    ∧ (∀ p, db.pricing.find? (fun q => q.model_name = response.model) = some p →
        ((track_usage db ticket_id agent_name response).1).input_cost_usd =
          (((response.input_tokens : ℚ) - (response.cached_tokens : ℚ)) / 1000) *
            p.input_cost_per_1k +
            ((response.cached_tokens : ℚ) / 1000) * p.cached_input_cost_per_1k ∧
        ((track_usage db ticket_id agent_name response).1).output_cost_usd =
          ((response.output_tokens : ℚ) / 1000) * p.output_cost_per_1k)
    ∧ (db.pricing.find? (fun q => q.model_name = response.model) = none →
        ((track_usage db ticket_id agent_name response).1).input_cost_usd = 0 ∧
        ((track_usage db ticket_id agent_name response).1).output_cost_usd = 0) := by
  unfold track_usage
  cases h : db.pricing.find? (fun q => q.model_name = response.model) with
  | some p =>
    refine ⟨by simp [h], by simp [h], by simp [h], by simp [h], ?_, by simp [h]⟩
    intro p1 hp1
    cases hp1
    refine ⟨?_, by simp [h]⟩
    simp only [h]
    push_cast
    ring
  | none =>
    refine ⟨by simp [h], by simp [h], by simp [h], by simp [h], ?_, by simp [h]⟩
    intro p1 hp1
    cases hp1

/-- Concrete instantiation of C8: a priced model is billed by the
formulas; an unknown model yields a zero-cost but persisted row. -/
theorem track_usage_cost_spec_witness :
    (∀ p, (Db.mk [] [] [] [⟨"gpt", "openai", 3, 6, 1⟩]).pricing.find?
        (fun q => q.model_name = "gpt") = some p →
      ((track_usage (Db.mk [] [] [] [⟨"gpt", "openai", 3, 6, 1⟩]) "t1" "classifier"
          ⟨"hi", "gpt", "openai", 1000, 2000, 500⟩).1).input_cost_usd =
        ((1000 - 500 : ℚ) / 1000) * p.input_cost_per_1k +
          ((500 : ℚ) / 1000) * p.cached_input_cost_per_1k ∧
      ((track_usage (Db.mk [] [] [] [⟨"gpt", "openai", 3, 6, 1⟩]) "t1" "classifier"
          ⟨"hi", "gpt", "openai", 1000, 2000, 500⟩).1).output_cost_usd =
        ((2000 : ℚ) / 1000) * p.output_cost_per_1k) ∧
    ((track_usage (Db.mk [] [] [] []) "t1" "classifier"
        ⟨"hi", "gpt", "openai", 1000, 2000, 500⟩).1).input_cost_usd = 0 := by
  constructor
  · intro p hp
    have h := (track_usage_cost_spec (Db.mk [] [] [] [⟨"gpt", "openai", 3, 6, 1⟩]) "t1"
      "classifier" ⟨"hi", "gpt", "openai", 1000, 2000, 500⟩).2.2.2.2.1 p hp
    simpa using h
  · exact ((track_usage_cost_spec (Db.mk [] [] [] []) "t1" "classifier"
      ⟨"hi", "gpt", "openai", 1000, 2000, 500⟩).2.2.2.2.2 (by rfl)).1

/-- Claim C2: classifier response parsing either yields a category of the
closed three-value type with a confidence clamped into `[0,1]` (default
`0.5` when the key is absent; placeholder reasoning when absent), or
fails with a `ClassificationError` carrying the raw response text; a JSON
decode failure and an unrecognized category value always fail and never
default to a category. -/
theorem classifier_parse_spec (jsonLoads : String → Except String Json)
    (strToFloat : String → Except String ℚ) (content : String) :
    (∀ r, parse_response jsonLoads strToFloat content = .ok r →
        0 ≤ r.confidence ∧ r.confidence ≤ 1)
    ∧ (∀ e, parse_response jsonLoads strToFloat content = .error e → e.raw_response = content)
    ∧ (∀ msg, jsonLoads (cleanContent content) = .error msg →
        ∃ e, parse_response jsonLoads strToFloat content = .error e)
    ∧ (∀ fields s, jsonLoads (cleanContent content) = .ok (.obj fields) →
        dictGet fields "category" (.str "") = .str s →
        MessageCategory.fromValue (pyLower s) = none →
        ∃ e, parse_response jsonLoads strToFloat content = .error e)
    ∧ (∀ fields r, jsonLoads (cleanContent content) = .ok (.obj fields) →
        fields.lookup "confidence" = none →
        parse_response jsonLoads strToFloat content = .ok r → r.confidence = 1 / 2)
    ∧ (∀ fields r, jsonLoads (cleanContent content) = .ok (.obj fields) →
        fields.lookup "reasoning" = none →
        parse_response jsonLoads strToFloat content = .ok r →
        r.reasoning = .str "No reasoning provided") := by
  have hbounds : ∀ c : ℚ, 0 ≤ max 0 (min 1 c) ∧ max 0 (min 1 c) ≤ 1 :=
    fun c => ⟨le_max_left 0 _, max_le (by norm_num) (min_le_left 1 c)⟩
  cases hj : jsonLoads (cleanContent content) with
  | error msg =>
    have heq : parse_response jsonLoads strToFloat content =
        .error ⟨"Failed to parse classification response: " ++ msg, content⟩ := by
      unfold parse_response
      simp [hj]
    refine ⟨?_, ?_, ?_, ?_, ?_, ?_⟩ <;> intros <;> simp_all
  | ok j =>
    cases j with
    | obj fields =>
      cases hcat : dictGet fields "category" (.str "") with
      | str s =>
        cases hmv : MessageCategory.fromValue (pyLower s) with
        | none =>
          have heq : parse_response jsonLoads strToFloat content =
              .error ⟨"Classification failed: Invalid category: " ++ pyLower s, content⟩ := by
            unfold parse_response
            simp [hj, hcat, hmv]
          refine ⟨?_, ?_, ?_, ?_, ?_, ?_⟩ <;> intros <;> simp_all
        | some category =>
          cases hf : pyFloat strToFloat (dictGet fields "confidence" (.num (1 / 2))) with
          | error e =>
            have heq : parse_response jsonLoads strToFloat content =
                .error ⟨"Classification failed: " ++ e, content⟩ := by
              unfold parse_response
              simp only [hj, hcat, hmv, hf]
            refine ⟨?_, ?_, ?_, ?_, ?_, ?_⟩ <;> intros <;> simp_all
          | ok c =>
            have heq : parse_response jsonLoads strToFloat content =
                .ok { category := category, confidence := max 0 (min 1 c),
                      reasoning := dictGet fields "reasoning" (.str "No reasoning provided") } := by
              unfold parse_response
              simp only [hj, hcat, hmv, hf]
            refine ⟨?_, ?_, ?_, ?_, ?_, ?_⟩
            · intro r hr
              rw [heq] at hr
              cases hr
              exact hbounds c
            · intro e he
              rw [heq] at he
              cases he
            · intro msg hmsg
              cases hmsg
            · intro fields1 s1 hfields1 hcat1 hmv1
              cases hfields1
              rw [hcat] at hcat1
              cases hcat1
              rw [hmv] at hmv1
              cases hmv1
            · intro fields1 r hfields1 hnoconf hr
              cases hfields1
              rw [heq] at hr
              cases hr
              have hd : dictGet fields "confidence" (.num (1 / 2)) = .num (1 / 2) := by
                simp [dictGet, hnoconf]
              rw [hd] at hf
              have hc : c = 1 / 2 := by
                simpa [pyFloat] using hf.symm
              subst hc
              norm_num
            · intro fields1 r hfields1 hnor hr
              cases hfields1
              rw [heq] at hr
              cases hr
              simp [dictGet, hnor]
      | null =>
        have heq : parse_response jsonLoads strToFloat content =
            .error ⟨"Classification failed: attribute error on category value", content⟩ := by
          unfold parse_response
          simp [hj, hcat]
        refine ⟨?_, ?_, ?_, ?_, ?_, ?_⟩ <;> intros <;> simp_all
      | bool b =>
        have heq : parse_response jsonLoads strToFloat content =
            .error ⟨"Classification failed: attribute error on category value", content⟩ := by
          unfold parse_response
          simp [hj, hcat]
        refine ⟨?_, ?_, ?_, ?_, ?_, ?_⟩ <;> intros <;> simp_all
      | num q =>
        have heq : parse_response jsonLoads strToFloat content =
            .error ⟨"Classification failed: attribute error on category value", content⟩ := by
          unfold parse_response
          simp [hj, hcat]
        refine ⟨?_, ?_, ?_, ?_, ?_, ?_⟩ <;> intros <;> simp_all
      | arr elems =>
        have heq : parse_response jsonLoads strToFloat content =
            .error ⟨"Classification failed: attribute error on category value", content⟩ := by
          unfold parse_response
          simp [hj, hcat]
        refine ⟨?_, ?_, ?_, ?_, ?_, ?_⟩ <;> intros <;> simp_all
      | obj fields1 =>
        have heq : parse_response jsonLoads strToFloat content =
            .error ⟨"Classification failed: attribute error on category value", content⟩ := by
          unfold parse_response
          simp [hj, hcat]
        refine ⟨?_, ?_, ?_, ?_, ?_, ?_⟩ <;> intros <;> simp_all
    | null =>
      have heq : parse_response jsonLoads strToFloat content =
          .error ⟨"Classification failed: attribute error on parsed value", content⟩ := by
        unfold parse_response
        simp [hj]
      refine ⟨?_, ?_, ?_, ?_, ?_, ?_⟩ <;> intros <;> simp_all
    | bool b =>
      have heq : parse_response jsonLoads strToFloat content =
          .error ⟨"Classification failed: attribute error on parsed value", content⟩ := by
        unfold parse_response
        simp [hj]
      refine ⟨?_, ?_, ?_, ?_, ?_, ?_⟩ <;> intros <;> simp_all
    | num q =>
      have heq : parse_response jsonLoads strToFloat content =
          .error ⟨"Classification failed: attribute error on parsed value", content⟩ := by
        unfold parse_response
        simp [hj]
      refine ⟨?_, ?_, ?_, ?_, ?_, ?_⟩ <;> intros <;> simp_all
    | str s =>
      have heq : parse_response jsonLoads strToFloat content =
          .error ⟨"Classification failed: attribute error on parsed value", content⟩ := by
        unfold parse_response
        simp [hj]
      refine ⟨?_, ?_, ?_, ?_, ?_, ?_⟩ <;> intros <;> simp_all
    | arr elems =>
      have heq : parse_response jsonLoads strToFloat content =
          .error ⟨"Classification failed: attribute error on parsed value", content⟩ := by
        unfold parse_response
        simp [hj]
      refine ⟨?_, ?_, ?_, ?_, ?_, ?_⟩ <;> intros <;> simp_all

/-- Concrete instantiation of C2: a well-formed object parses with
clamped confidence; malformed JSON and a bad category value fail. -/
theorem classifier_parse_spec_witness :
    (∀ r, parse_response (fun _ => .ok (.obj [("category", .str "positive"),
          ("confidence", .num 7)])) (fun _ => .error "x") "raw" = .ok r →
        0 ≤ r.confidence ∧ r.confidence ≤ 1)
    ∧ (∃ e, parse_response (fun _ => .error "bad json") (fun _ => .error "x") "raw" = .error e)
    ∧ (∃ e, parse_response (fun _ => .ok (.obj [("category", .str "weird")]))
        (fun _ => .error "x") "raw" = .error e) := by
  refine ⟨(classifier_parse_spec _ _ _).1, ?_, ?_⟩
  · exact (classifier_parse_spec (fun _ => .error "bad json") (fun _ => .error "x") "raw").2.2.1
      "bad json" rfl
  · exact (classifier_parse_spec (fun _ => .ok (.obj [("category", .str "weird")]))
      (fun _ => .error "x") "raw").2.2.2.1 [("category", .str "weird")] "weird" rfl (by rfl)
      (by rfl)

/-- Claim C3: every successful `ClassifierAgent.process` run appends,
after the model-call tracking entry, exactly one audit entry recording
the classification outcome, and that entry stores the classification's
confidence as its confidence score. -/
theorem classifier_audit_spec (jsonLoads : String → Except String Json)
    (strToFloat : String → Except String ℚ) (llmOutcome : Except String LLMResponse)
    (db : Db) (ticket_id message : String) (r : ClassificationResult)
    (h : (classifierProcess jsonLoads strToFloat llmOutcome db ticket_id message).1 = .ok r) :
    ∃ a1 : AuditLog,
      ((classifierProcess jsonLoads strToFloat llmOutcome db ticket_id message).2).audits =
        db.audits ++ [a1,
          { ticket_id := ticket_id, agent_name := "classifier", action := .CLASSIFY,
            input_summary := truncate message 200,
            output_summary := "category=" ++ r.category.value,
            decision_reasoning := some r.reasoning,
            confidence_score := some r.confidence,
            duration_ms := 0, success := true, error_message := none }]
      ∧ a1.confidence_score = none ∧ a1.success = true := by
  cases hllm : llmOutcome with
  | error e =>
    exfalso
    unfold classifierProcess call_llm at h
    simp [hllm] at h
  | ok response =>
    cases hp : parse_response jsonLoads strToFloat response.content with
    | error err =>
      exfalso
      unfold classifierProcess call_llm at h
      simp [hllm, hp] at h
    | ok result =>
      have hr : result = r := by
        unfold classifierProcess call_llm at h
        simpa [hllm, hp] using h
      subst hr
      refine ⟨⟨ticket_id, "classifier", .CLASSIFY, truncate message 200,
        truncate response.content 200, none, none, 0, true, none⟩, ?_, rfl, rfl⟩
      unfold classifierProcess call_llm track_usage
      simp [hllm, hp]

/-- Concrete instantiation of C3: a successful run over an empty store
leaves exactly the model-call entry followed by the classification-outcome
entry carrying the classification confidence. -/
theorem classifier_audit_spec_witness :
    ∃ a1 : AuditLog,
      ((classifierProcess (fun _ => .ok (.obj [("category", .str "query")]))
          (fun _ => .error "x") (.ok ⟨"resp", "m", "p", 1, 1, 0⟩)
          (Db.mk [] [] [] []) "t1" "hello").2).audits =
        (Db.mk [] [] [] []).audits ++ [a1,
          ⟨"t1", "classifier", .CLASSIFY, truncate "hello" 200,
            "category=" ++ MessageCategory.QUERY.value,
            some (.str "No reasoning provided"), some (max 0 (min 1 (1 / 2))), 0, true, none⟩]
      ∧ a1.confidence_score = none ∧ a1.success = true :=
  classifier_audit_spec (fun _ => .ok (.obj [("category", .str "query")]))
    (fun _ => .error "x") (.ok ⟨"resp", "m", "p", 1, 1, 0⟩) (Db.mk [] [] [] []) "t1" "hello"
    ⟨.QUERY, max 0 (min 1 (1 / 2)), .str "No reasoning provided"⟩ rfl

/-- After overwriting every row whose id matches, looking the id up finds
the new row (provided some row with that id existed). -/
theorem find?_update_of_mem (l : List Ticket) (i : String) (u : Ticket) (hu : u.id = i)
    (h : ∃ t ∈ l, t.id = i) :
    (l.map (fun t => if t.id = i then u else t)).find? (fun t => t.id = i) = some u := by
  induction l with
  | nil => simp at h
  | cons t tl ih =>
    by_cases ht : t.id = i
    · simp only [List.map_cons, List.find?_cons, ht, if_pos]
      simp [hu]
    · obtain ⟨w, hw, hwid⟩ := h
      cases hw with
      | head => exact absurd hwid ht
      | tail _ hw2 =>
        have hrec := ih ⟨w, hw2, hwid⟩
        simp only [List.map_cons, List.find?_cons, if_neg ht]
        simpa [ht] using hrec

/-- The classifier call never touches the tickets table. -/
theorem classifierProcess_tickets (jl : String → Except String Json)
    (sf : String → Except String ℚ) (llm : Except String LLMResponse)
    (db : Db) (tid msg : String) :
    ((classifierProcess jl sf llm db tid msg).2).tickets = db.tickets := by
  unfold classifierProcess call_llm track_usage
  cases llm with
  | error e => simp
  | ok response => cases hp : parse_response jl sf response.content <;> simp [hp]

/-- A handler run never touches the tickets table. -/
theorem handlerProcess_tickets (policies : PolicyTable) (llm : Except String LLMResponse)
    (db : Db) (cat : MessageCategory) (tid msg : String) :
    ((handlerProcess policies llm db cat tid msg).2).tickets = db.tickets := by
  unfold handlerProcess call_llm track_usage get_by_id
  cases cat with
  | POSITIVE => cases llm <;> simp
  | NEGATIVE => cases llm <;> simp
  | QUERY =>
    cases hf : db.tickets.find? (fun t => t.id = tid) with
    | none => simp [hf]
    | some t => cases llm <;> simp [hf]

/-- Audit-trail shape of one classifier call: it appends only
classifier-named entries, all successful when the call succeeds, and any
exception it raises is an ordinary (non-chaos) one. -/
theorem classifierProcess_audits (jl : String → Except String Json)
    (sf : String → Except String ℚ) (llm : Except String LLMResponse)
    (db : Db) (tid msg : String) :
    ∃ newA, ((classifierProcess jl sf llm db tid msg).2).audits = db.audits ++ newA ∧
      (∀ a ∈ newA, a.agent_name = "classifier") ∧
      (∀ r, (classifierProcess jl sf llm db tid msg).1 = .ok r → ∀ a ∈ newA, a.success = true) ∧
      (∀ e, (classifierProcess jl sf llm db tid msg).1 = .error e → ∃ t, e = PyErr.other t) := by
  unfold classifierProcess call_llm track_usage
  cases llm with
  | error e =>
    refine ⟨[⟨tid, "classifier", .CLASSIFY, truncate msg 200, "Error: " ++ e,
      none, none, 0, false, some e⟩], by simp, by simp, ?_, ?_⟩
    · intro r hr
      simp at hr
    · intro e1 he
      simp at he
      exact ⟨e, he.symm⟩
  | ok response =>
    cases hp : parse_response jl sf response.content with
    | error err =>
      refine ⟨[⟨tid, "classifier", .CLASSIFY, truncate msg 200,
        truncate response.content 200, none, none, 0, true, none⟩],
        by simp [hp], by simp, ?_, ?_⟩
      · intro r hr
        simp [hp] at hr
      · intro e1 he
        simp [hp] at he
        exact ⟨err.message, he.symm⟩
    | ok result =>
      refine ⟨[⟨tid, "classifier", .CLASSIFY, truncate msg 200,
          truncate response.content 200, none, none, 0, true, none⟩,
        ⟨tid, "classifier", .CLASSIFY, truncate msg 200,
          "category=" ++ result.category.value, some result.reasoning,
          some result.confidence, 0, true, none⟩],
        by simp [hp], by simp, by simp, ?_⟩
      intro e1 he
      simp [hp] at he

/-- Audit-trail shape of one handler run: it appends only entries named
after the selected handler, all successful when the run succeeds, and any
exception it raises is an ordinary (non-chaos) one. -/
theorem handlerProcess_audits (policies : PolicyTable) (llm : Except String LLMResponse)
    (db : Db) (cat : MessageCategory) (tid msg : String) :
    ∃ newA, ((handlerProcess policies llm db cat tid msg).2).audits = db.audits ++ newA ∧
      (∀ a ∈ newA, a.agent_name = handlerName cat) ∧
      (∀ r, (handlerProcess policies llm db cat tid msg).1 = .ok r → ∀ a ∈ newA, a.success = true) ∧
      (∀ e, (handlerProcess policies llm db cat tid msg).1 = .error e → ∃ t, e = PyErr.other t) := by
  unfold handlerProcess call_llm track_usage get_by_id
  cases cat with
  | POSITIVE =>
    cases llm with
    | error e =>
      refine ⟨[⟨tid, "positive_handler", .RESPOND, truncate msg 200, "Error: " ++ e,
        none, none, 0, false, some e⟩], by simp, by simp [handlerName], ?_, ?_⟩
      · intro r hr
        simp at hr
      · intro e1 he
        simp at he
        exact ⟨e, he.symm⟩
    | ok response =>
      refine ⟨[⟨tid, "positive_handler", .RESPOND, truncate msg 200,
        truncate response.content 200, none, none, 0, true, none⟩],
        by simp, by simp [handlerName], by simp, ?_⟩
      intro e1 he
      simp at he
  | NEGATIVE =>
    cases llm with
    | error e =>
      refine ⟨[⟨tid, "negative_handler", .RESPOND,
        truncate (NegativeHandler.enhanced_message policies msg) 200, "Error: " ++ e,
        none, none, 0, false, some e⟩], by simp, by simp [handlerName], ?_, ?_⟩
      · intro r hr
        simp at hr
      · intro e1 he
        simp at he
        exact ⟨e, he.symm⟩
    | ok response =>
      refine ⟨[⟨tid, "negative_handler", .RESPOND,
        truncate (NegativeHandler.enhanced_message policies msg) 200,
        truncate response.content 200, none, none, 0, true, none⟩],
        by simp, by simp [handlerName], by simp, ?_⟩
      intro e1 he
      simp at he
  | QUERY =>
    cases hf : db.tickets.find? (fun t => t.id = tid) with
    | none =>
      refine ⟨[], by simp [hf], by simp, ?_, ?_⟩
      · intro r hr
        simp [hf] at hr
      · intro e1 he
        simp [hf] at he
        exact ⟨"Ticket not found: " ++ tid, he.symm⟩
    | some ticket =>
      cases llm with
      | error e =>
        refine ⟨[⟨tid, "query_handler", .RESPOND,
          truncate (QueryHandler.enhanced_message policies db ticket msg) 200, "Error: " ++ e,
          none, none, 0, false, some e⟩], by simp [hf], by simp [handlerName], ?_, ?_⟩
        · intro r hr
          simp [hf] at hr
        · intro e1 he
          simp [hf] at he
          exact ⟨e, he.symm⟩
      | ok response =>
        refine ⟨[⟨tid, "query_handler", .RESPOND,
          truncate (QueryHandler.enhanced_message policies db ticket msg) 200,
          truncate response.content 200, none, none, 0, true, none⟩],
          by simp [hf], by simp [handlerName], by simp, ?_⟩
        intro e1 he
        simp [hf] at he

/-- Shape of a successful `try`-body run: the returned bundle is built
from the classification and the handler response, the final persisted row
is found under the ticket id, and the returned in-memory ticket is that
row plus the `total_cost_usd` metadata key. -/
theorem inner_ok_shape (jl : String → Except String Json) (sf : String → Except String ℚ)
    (policies : PolicyTable) (env : Env) (chaos_mode : Bool) (db1 : Db) (ticket0 : Ticket)
    (message : String) (r : ProcessingResult) (db2 : Db)
    (h : process_message_inner jl sf policies env chaos_mode db1 ticket0 message = (.ok r, db2))
    (hmem : ∃ t ∈ db1.tickets, t.id = ticket0.id) :
    ∃ (classification : ClassificationResult) (hresp : HandlerResponse) (t2u : Ticket),
      r.requires_escalation = hresp.requires_escalation ∧
      r.escalation_reason = hresp.escalation_reason ∧
      r.classification = classification ∧
      r.ticket =
        { t2u with
          metadata := dictSet t2u.metadata "total_cost_usd"
            (.num (get_ticket_cost db2 ticket0.id)) } ∧
      t2u.id = ticket0.id ∧
      t2u.status = (if hresp.requires_escalation then TicketStatus.ESCALATED
        else TicketStatus.RESOLVED) ∧
      t2u.metadata = (if hresp.requires_escalation then
          dictSet (dictSet (dictSet ticket0.metadata "classification_confidence"
              (.num classification.confidence))
            "classification_reasoning" classification.reasoning)
            "escalation_reason" (jsonOfOptionStr hresp.escalation_reason)
        else
          dictSet (dictSet ticket0.metadata "classification_confidence"
              (.num classification.confidence))
            "classification_reasoning" classification.reasoning) ∧
      db2.tickets.find? (fun t => t.id = ticket0.id) = some t2u := by
  unfold process_message_inner update_ticket at h
  split at h
  · simp at h
  · split at h
    · simp at h
    · split at h
      · simp at h
      · rename_i classification db2c heqc
        dsimp only at h
        split at h
        · simp at h
        · split at h
          · simp at h
          · split at h
            · simp at h
            · rename_i hresp db5 heqh
              split at h
              · simp at h
              · rw [Prod.mk.injEq] at h
                obtain ⟨h1, h2⟩ := h
                injection h1 with h1
                subst h1
                subst h2
                have hc2 : db2c.tickets = db1.tickets := by
                  have hpres := classifierProcess_tickets jl sf env.classifierLLM db1
                    ticket0.id message
                  rw [heqc] at hpres
                  exact hpres
                have hmap := congrArg (fun p => (Prod.snd p).tickets) heqh
                dsimp only at hmap
                rw [handlerProcess_tickets] at hmap
                dsimp only at hmap
                refine ⟨classification, hresp,
                  ⟨ticket0.customer_id, ticket0.customer_message, classification.category,
                    (if hresp.requires_escalation then TicketStatus.ESCALATED
                      else TicketStatus.RESOLVED),
                    hresp.priority, some hresp.response,
                    some (handlerName classification.category),
                    (if hresp.requires_escalation then
                      dictSet (dictSet (dictSet ticket0.metadata "classification_confidence"
                          (.num classification.confidence))
                        "classification_reasoning" classification.reasoning)
                        "escalation_reason" (jsonOfOptionStr hresp.escalation_reason)
                    else
                      dictSet (dictSet ticket0.metadata "classification_confidence"
                          (.num classification.confidence))
                        "classification_reasoning" classification.reasoning),
                    ticket0.id, ticket0.created_at, env.tUpd2, ticket0.resolved_at⟩,
                  rfl, rfl, rfl, rfl, rfl, rfl, rfl, ?_⟩
                dsimp only
                rw [← hmap, hc2]
                apply find?_update_of_mem
                · rfl
                · obtain ⟨w, hw, hwid⟩ := hmem
                  refine ⟨_, List.mem_map_of_mem _ hw, ?_⟩
                  simp [hwid]

/-- A successful `process_message` run is exactly a successful `try`-body
run started on the store holding the freshly created ticket. -/
theorem process_message_ok_inner (jl : String → Except String Json)
    (sf : String → Except String ℚ) (policies : PolicyTable) (env : Env)
    (cid msg : String) (cm : Bool) (db : Db) (r : ProcessingResult)
    (h : (process_message jl sf policies env cid msg cm db).1 = .ok r) :
    process_message_inner jl sf policies env cm
        { db with tickets := db.tickets ++
          [⟨cid, msg, .QUERY, .OPEN, .MEDIUM, none, none, [], env.newId, env.tCreate,
            env.tCreate, none⟩] }
        ⟨cid, msg, .QUERY, .OPEN, .MEDIUM, none, none, [], env.newId, env.tCreate,
          env.tCreate, none⟩
        msg
      = (.ok r, (process_message jl sf policies env cid msg cm db).2) := by
  unfold process_message create_ticket at h ⊢
  dsimp only at h ⊢
  cases hin : process_message_inner jl sf policies env cm
      { db with tickets := db.tickets ++
        [⟨cid, msg, .QUERY, .OPEN, .MEDIUM, none, none, [], env.newId, env.tCreate,
          env.tCreate, none⟩] }
      ⟨cid, msg, .QUERY, .OPEN, .MEDIUM, none, none, [], env.newId, env.tCreate,
        env.tCreate, none⟩
      msg with
  | mk res db2 =>
    cases res with
    | ok r1 =>
      rw [hin] at h
      simp at h
      subst h
      rfl
    | error e =>
      cases e with
      | chaos c m =>
        rw [hin] at h
        simp at h
      | other t =>
        rw [hin] at h
        simp at h

/-- Claim C5: every `process_message` run that completes without an
exception leaves the returned ticket ESCALATED exactly when the selected
handler's response required escalation (recording the escalation reason
in the ticket metadata) and RESOLVED otherwise; no other status is the
final status of a successful run. -/
theorem final_status_spec (jl : String → Except String Json) (sf : String → Except String ℚ)
    (policies : PolicyTable) (env : Env) (cid msg : String) (cm : Bool) (db : Db)
    (r : ProcessingResult)
    (h : (process_message jl sf policies env cid msg cm db).1 = .ok r) :
    r.ticket.status =
      (if r.requires_escalation then TicketStatus.ESCALATED else TicketStatus.RESOLVED)
    ∧ (r.ticket.status = TicketStatus.RESOLVED ∨ r.ticket.status = TicketStatus.ESCALATED)
    ∧ (r.requires_escalation = true →
        r.ticket.metadata.lookup "escalation_reason" = some (jsonOfOptionStr r.escalation_reason)) := by
  have hin := process_message_ok_inner jl sf policies env cid msg cm db r h
  obtain ⟨classification, hresp, t2u, h1, h2, h3, h4, h5, h6, h7, h8⟩ :=
    inner_ok_shape jl sf policies env cm _ _ msg r _ hin ⟨_, by simp, rfl⟩
  refine ⟨?_, ?_, ?_⟩
  · rw [h4, h1]
    dsimp only
    exact h6
  · rw [h4]
    dsimp only
    rw [h6]
    cases hresp.requires_escalation <;> simp
  · intro hesc
    rw [h1] at hesc
    rw [h4, h2]
    dsimp only
    rw [h7]
    simp only [hesc, if_pos]
    rfl

/-- Concrete instantiation of C5: a successful positive-path run ends
with the ticket resolved or escalated. -/
theorem final_status_spec_witness :
    ∃ r, (process_message (fun _ => .ok (.obj [("category", .str "positive")]))
        (fun _ => .error "x") []
        ⟨{}, .ok ⟨"cls", "m", "p", 1, 1, 0⟩, .ok ⟨"resp", "m", "p", 1, 1, 0⟩, "t1", 0, 0, 0⟩
        "cust" "thanks" false (Db.mk [] [] [] [])).1 = .ok r ∧
      (r.ticket.status = TicketStatus.RESOLVED ∨ r.ticket.status = TicketStatus.ESCALATED) := by
  refine ⟨_, rfl, ?_⟩
  exact (final_status_spec (fun _ => .ok (.obj [("category", .str "positive")]))
    (fun _ => .error "x") []
    ⟨{}, .ok ⟨"cls", "m", "p", 1, 1, 0⟩, .ok ⟨"resp", "m", "p", 1, 1, 0⟩, "t1", 0, 0, 0⟩
    "cust" "thanks" false (Db.mk [] [] [] []) _ rfl).2.1

/-- Claim C10: on a successful run the returned in-memory ticket carries
the `total_cost_usd` metadata key, while the row persisted by the final
update is the same ticket without that key; every other field matches the
persisted row. -/
theorem total_cost_metadata_frame_spec (jl : String → Except String Json)
    (sf : String → Except String ℚ) (policies : PolicyTable) (env : Env)
    (cid msg : String) (cm : Bool) (db : Db) (r : ProcessingResult)
    (h : (process_message jl sf policies env cid msg cm db).1 = .ok r) :
    ∃ persisted : Ticket,
      ((process_message jl sf policies env cid msg cm db).2).tickets.find?
        (fun t => t.id = r.ticket.id) = some persisted ∧
      persisted.metadata.lookup "total_cost_usd" = none ∧
      r.ticket.metadata.lookup "total_cost_usd" =
        some (.num (get_ticket_cost (process_message jl sf policies env cid msg cm db).2
          r.ticket.id)) ∧
      r.ticket =
        { persisted with
          metadata := persisted.metadata ++
            [("total_cost_usd",
              Json.num (get_ticket_cost (process_message jl sf policies env cid msg cm db).2
                r.ticket.id))] } := by
  have hin := process_message_ok_inner jl sf policies env cid msg cm db r h
  obtain ⟨classification, hresp, t2u, h1, h2, h3, h4, h5, h6, h7, h8⟩ :=
    inner_ok_shape jl sf policies env cm _ _ msg r _ hin ⟨_, by simp, rfl⟩
  have hid : r.ticket.id = env.newId := by
    rw [h4]
    dsimp only
    rw [h5]
  have hnone : t2u.metadata.lookup "total_cost_usd" = none := by
    rw [h7]
    cases he : hresp.requires_escalation <;> simp only [he] <;> rfl
  refine ⟨t2u, ?_, hnone, ?_, ?_⟩
  · rw [hid]
    exact h8
  · rw [hid, h4]
    dsimp only
    rw [h7]
    cases he : hresp.requires_escalation <;> simp only [he] <;> rfl
  · rw [hid, h4]
    congr 1
    show dictSet t2u.metadata "total_cost_usd" _ = t2u.metadata ++ [("total_cost_usd", _)]
    simp [dictSet, hnone]

set_option maxHeartbeats 2000000 in
/-- Concrete instantiation of C10: in a successful run over an empty
store, the persisted row lacks the `total_cost_usd` key while the
returned ticket has it. -/
theorem total_cost_metadata_frame_spec_witness :
    ∃ r, (process_message (fun _ => .ok (.obj [("category", .str "positive")]))
        (fun _ => .error "x") []
        ⟨{}, .ok ⟨"cls", "m", "p", 2, 3, 0⟩, .ok ⟨"resp", "m", "p", 1, 1, 0⟩, "t9", 0, 0, 0⟩
        "cust" "thanks" false (Db.mk [] [] [] [])).1 = .ok r ∧
      ∃ persisted : Ticket,
        persisted.metadata.lookup "total_cost_usd" = none ∧
        r.ticket.metadata.lookup "total_cost_usd" =
          some (.num (get_ticket_cost
            (process_message (fun _ => .ok (.obj [("category", .str "positive")]))
              (fun _ => .error "x") []
              ⟨{}, .ok ⟨"cls", "m", "p", 2, 3, 0⟩, .ok ⟨"resp", "m", "p", 1, 1, 0⟩, "t9", 0, 0, 0⟩
              "cust" "thanks" false (Db.mk [] [] [] [])).2 r.ticket.id)) := by
  refine ⟨_, rfl, ?_⟩
  obtain ⟨p, _, hp2, hp3, _⟩ := total_cost_metadata_frame_spec
    (fun _ => .ok (.obj [("category", .str "positive")])) (fun _ => .error "x") []
    ⟨{}, .ok ⟨"cls", "m", "p", 2, 3, 0⟩, .ok ⟨"resp", "m", "p", 1, 1, 0⟩, "t9", 0, 0, 0⟩
    "cust" "thanks" false (Db.mk [] [] [] []) _ rfl
  exact ⟨p, hp2, hp3⟩

/-- The handler name of the dispatch table is never the orchestrator's
own name. -/
theorem handlerName_ne_orchestrator (cat : MessageCategory) :
    handlerName cat ≠ "orchestrator" := by
  cases cat <;> simp [handlerName]

/-- Shape of a failing `try`-body run: the entries appended before the
exception propagates are never failed orchestrator entries, and when the
exception is an injected fault every appended entry is a success. -/
theorem inner_err_shape (jl : String → Except String Json) (sf : String → Except String ℚ)
    (policies : PolicyTable) (env : Env) (chaos_mode : Bool) (db1 : Db) (ticket0 : Ticket)
    (message : String) (err : PyErr) (db2 : Db)
    (h : process_message_inner jl sf policies env chaos_mode db1 ticket0 message =
      (.error err, db2)) :
    ∃ newA, db2.audits = db1.audits ++ newA ∧
      (∀ a ∈ newA, a.agent_name ≠ "orchestrator" ∨ a.success = true) ∧
      (∀ c m, err = .chaos c m → ∀ a ∈ newA, a.success = true) := by
  obtain ⟨newC, hC1, hC2, hC3, hC4⟩ :=
    classifierProcess_audits jl sf env.classifierLLM db1 ticket0.id message
  unfold process_message_inner update_ticket at h
  split at h
  · rw [Prod.mk.injEq] at h
    obtain ⟨h1, h2⟩ := h
    subst h2
    exact ⟨[], by simp, by simp, by simp⟩
  · split at h
    · rw [Prod.mk.injEq] at h
      obtain ⟨h1, h2⟩ := h
      subst h2
      exact ⟨[], by simp, by simp, by simp⟩
    · split at h
      · rename_i e db2c heqc
        rw [Prod.mk.injEq] at h
        obtain ⟨h1, h2⟩ := h
        injection h1 with h1
        subst h1
        subst h2
        rw [heqc] at hC1
        dsimp only at hC1
        have herr := hC4 e (by rw [heqc])
        refine ⟨newC, hC1, ?_, ?_⟩
        · intro a ha
          left
          rw [hC2 a ha]
          simp
        · intro c m hcm
          obtain ⟨t, ht⟩ := herr
          rw [ht] at hcm
          cases hcm
      · rename_i classification db2c heqc
        have hCok := hC3 classification (by rw [heqc])
        rw [heqc] at hC1
        dsimp only at hC1
        dsimp only at h
        obtain ⟨newH, hH1, hH2, hH3, hH4⟩ :=
          handlerProcess_audits policies env.handlerLLM _ classification.category
            ticket0.id message
        split at h
        · rw [Prod.mk.injEq] at h
          obtain ⟨h1, h2⟩ := h
          subst h2
          refine ⟨newC, by simpa using hC1, ?_, ?_⟩
          · intro a ha
            right
            exact hCok a ha
          · intro c m hcm a ha
            exact hCok a ha
        · split at h
          · rw [Prod.mk.injEq] at h
            obtain ⟨h1, h2⟩ := h
            subst h2
            refine ⟨newC ++ [routeEntry ticket0.id classification], ?_, ?_, ?_⟩
            · dsimp only
              rw [hC1]
              simp
            · intro a ha
              right
              rcases List.mem_append.mp ha with hc | hr
              · exact hCok a hc
              · rw [List.mem_singleton.mp hr]
                rfl
            · intro c m hcm a ha
              rcases List.mem_append.mp ha with hc | hr
              · exact hCok a hc
              · rw [List.mem_singleton.mp hr]
                rfl
          · split at h
            · rename_i e db5 heqh
              rw [Prod.mk.injEq] at h
              obtain ⟨h1, h2⟩ := h
              injection h1 with h1
              subst h1
              subst h2
              have hmapA := congrArg (fun p => (Prod.snd p).audits) heqh
              dsimp only at hmapA
              rw [hH1] at hmapA
              dsimp only at hmapA
              have herr := hH4 e (by rw [heqh])
              refine ⟨newC ++ [routeEntry ticket0.id classification] ++ newH, ?_, ?_, ?_⟩
              · rw [← hmapA, hC1]
                simp
              · intro a ha
                rcases List.mem_append.mp ha with hcr | hh
                · rcases List.mem_append.mp hcr with hc | hr
                  · right
                    exact hCok a hc
                  · right
                    rw [List.mem_singleton.mp hr]
                    rfl
                · left
                  rw [hH2 a hh]
                  exact handlerName_ne_orchestrator classification.category
              · intro c m hcm
                obtain ⟨t, ht⟩ := herr
                rw [ht] at hcm
                cases hcm
            · rename_i hresp db5 heqh
              have hHok := hH3 hresp (by rw [heqh])
              have hmapA := congrArg (fun p => (Prod.snd p).audits) heqh
              dsimp only at hmapA
              rw [hH1] at hmapA
              dsimp only at hmapA
              split at h
              · rw [Prod.mk.injEq] at h
                obtain ⟨h1, h2⟩ := h
                subst h2
                refine ⟨newC ++ [routeEntry ticket0.id classification] ++ newH, ?_, ?_, ?_⟩
                · rw [← hmapA, hC1]
                  simp
                · intro a ha
                  right
                  rcases List.mem_append.mp ha with hcr | hh
                  · rcases List.mem_append.mp hcr with hc | hr
                    · exact hCok a hc
                    · rw [List.mem_singleton.mp hr]
                      rfl
                  · exact hHok a hh
                · intro c m hcm a ha
                  rcases List.mem_append.mp ha with hcr | hh
                  · rcases List.mem_append.mp hcr with hc | hr
                    · exact hCok a hc
                    · rw [List.mem_singleton.mp hr]
                      rfl
                  · exact hHok a hh
              · simp at h

/-- Claim C4 (amended): an injected `ChaosError` escaping
`process_message` is re-raised with no audit entry recording the abort
(every entry written by the partial run is a success entry), while any
other exception reaching the top level appends exactly one orchestrator
failure audit entry whose `error_message` stores the exception text
unmodified (not truncated), and is re-raised unchanged. -/
theorem orchestrator_error_audit_spec (jl : String → Except String Json)
    (sf : String → Except String ℚ) (policies : PolicyTable) (env : Env)
    (cid msg : String) (cm : Bool) (db : Db) :
    (∀ c m, (process_message jl sf policies env cid msg cm db).1 = .error (.chaos c m) →
      ∃ newA, ((process_message jl sf policies env cid msg cm db).2).audits =
          db.audits ++ newA ∧ ∀ a ∈ newA, a.success = true)
    ∧ (∀ t, (process_message jl sf policies env cid msg cm db).1 = .error (.other t) →
      ∃ newA, ((process_message jl sf policies env cid msg cm db).2).audits =
          db.audits ++ newA ++ [orchestratorFailEntry env.newId t] ∧
        (orchestratorFailEntry env.newId t).agent_name = "orchestrator" ∧
        (orchestratorFailEntry env.newId t).success = false ∧
        (orchestratorFailEntry env.newId t).error_message = some t ∧
        ∀ a ∈ newA, a.agent_name ≠ "orchestrator" ∨ a.success = true) := by
  unfold process_message create_ticket
  dsimp only
  cases hin : process_message_inner jl sf policies env cm
      { db with tickets := db.tickets ++
        [⟨cid, msg, .QUERY, .OPEN, .MEDIUM, none, none, [], env.newId, env.tCreate,
          env.tCreate, none⟩] }
      ⟨cid, msg, .QUERY, .OPEN, .MEDIUM, none, none, [], env.newId, env.tCreate,
        env.tCreate, none⟩
      msg with
  | mk res db2 =>
    cases res with
    | ok r1 =>
      constructor
      · intro c m hcm
        simp at hcm
      · intro t ht
        simp at ht
    | error e =>
      obtain ⟨newA, hA1, hA2, hA3⟩ := inner_err_shape jl sf policies env cm _ _ msg e db2 hin
      dsimp only at hA1
      cases e with
      | chaos c0 m0 =>
        constructor
        · intro c m hcm
          exact ⟨newA, hA1, hA3 c0 m0 rfl⟩
        · intro t ht
          simp at ht
      | other t0 =>
        constructor
        · intro c m hcm
          simp at hcm
        · intro t ht
          simp at ht
          subst ht
          refine ⟨newA, ?_, rfl, rfl, rfl, hA2⟩
          dsimp only
          rw [hA1]

/-- Concrete instantiation of C4: a triggered chaos draw aborts with only
success entries written, and a provider failure gets exactly one
orchestrator failure entry carrying the full error text. -/
theorem orchestrator_error_audit_spec_witness :
    (∃ newA, ((process_message (fun _ => .ok .null) (fun _ => .error "x") []
        ⟨⟨some "boom", none, none, none, none⟩, .error "c", .error "h", "t1", 0, 0, 0⟩
        "cust" "hello" true (Db.mk [] [] [] [])).2).audits =
          (Db.mk [] [] [] []).audits ++ newA ∧
      ∀ a ∈ newA, a.success = true) ∧
    (∃ newA, ((process_message (fun _ => .ok .null) (fun _ => .error "x") []
        ⟨{}, .error "boom2", .error "h", "t2", 0, 0, 0⟩
        "cust" "hello" false (Db.mk [] [] [] [])).2).audits =
        (Db.mk [] [] [] []).audits ++ newA ++ [orchestratorFailEntry "t2" "boom2"] ∧
      (orchestratorFailEntry "t2" "boom2").error_message = some "boom2" ∧
      ∀ a ∈ newA, a.agent_name ≠ "orchestrator" ∨ a.success = true) := by
  constructor
  · exact (orchestrator_error_audit_spec (fun _ => .ok .null) (fun _ => .error "x") []
      ⟨⟨some "boom", none, none, none, none⟩, .error "c", .error "h", "t1", 0, 0, 0⟩
      "cust" "hello" true (Db.mk [] [] [] [])).1 "TicketService" "boom" rfl
  · obtain ⟨newA, h1, h2, h3, h4, h5⟩ := (orchestrator_error_audit_spec
      (fun _ => .ok .null) (fun _ => .error "x") []
      ⟨{}, .error "boom2", .error "h", "t2", 0, 0, 0⟩
      "cust" "hello" false (Db.mk [] [] [] [])).2 "boom2" rfl
    exact ⟨newA, h1, h4, h5⟩

set_option maxRecDepth 100000 in
/-- Counterexample to C4 as stated: a 300-character provider error text
is stored in the orchestrator failure audit entry in full, not
truncated (the codebase's truncation to 200 characters would have
shortened it). -/
theorem orchestrator_error_truncation_cex :
    ((process_message (fun _ => .ok .null) (fun _ => .error "x") []
        ⟨{}, .error (String.mk (List.replicate 300 'e')), .error "h", "t1", 0, 0, 0⟩
        "cust" "hello" false (Db.mk [] [] [] [])).1 =
      .error (.other (String.mk (List.replicate 300 'e')))) ∧
    ((process_message (fun _ => .ok .null) (fun _ => .error "x") []
        ⟨{}, .error (String.mk (List.replicate 300 'e')), .error "h", "t1", 0, 0, 0⟩
        "cust" "hello" false (Db.mk [] [] [] [])).2).audits.getLast? =
      some (orchestratorFailEntry "t1" (String.mk (List.replicate 300 'e'))) ∧
    (orchestratorFailEntry "t1" (String.mk (List.replicate 300 'e'))).error_message =
      some (String.mk (List.replicate 300 'e')) ∧
    (String.mk (List.replicate 300 'e')).length = 300 ∧
    truncate (String.mk (List.replicate 300 'e')) 200 ≠ String.mk (List.replicate 300 'e') := by
  refine ⟨rfl, rfl, rfl, rfl, ?_⟩
  decide

/-- A successful association-list lookup returns a pair of the list. -/
theorem lookup_mem_pair {l : PolicyTable} {k : String} {v : Policy}
    (h : l.lookup k = some v) : (k, v) ∈ l := by
  induction l with
  | nil => simp [List.lookup] at h
  | cons kv tl ih =>
    obtain ⟨a, b⟩ := kv
    by_cases hk : k = a
    · subst hk
      simp [List.lookup] at h
      subst h
      exact List.mem_cons_self _ _
    · have hbeq : (k == a) = false := beq_false_of_ne hk
      simp [List.lookup, hbeq] at h
      exact List.mem_cons_of_mem _ (ih h)

/-- The first imperative loop of `search_policies` accumulates exactly
the union of the keyword-table matches. -/
theorem foldl_keyword_union (L : List (String × List String)) (ml : String) (s : Finset String) :
    L.foldl (fun s kv => if pyContains ml kv.1 then s ∪ kv.2.toFinset else s) s =
      s ∪ L.foldr (fun kv acc => if pyContains ml kv.1 then kv.2.toFinset ∪ acc else acc) ∅ := by
  induction L generalizing s with
  | nil => simp
  | cons kv tl ih =>
    by_cases hc : pyContains ml kv.1 = true
    · simp only [List.foldl_cons, List.foldr_cons, hc, if_true]
      rw [ih]
      rw [Finset.union_assoc]
    · simp only [List.foldl_cons, List.foldr_cons, hc, if_false]
      exact ih s

/-- The second imperative loop of `search_policies` (with its
already-seen guard) accumulates exactly the ids of the policies passing
the body/title heuristic. -/
theorem foldl_heur_union (L : PolicyTable) (ml : String) (s : Finset String) :
    L.foldl (fun s pp =>
        if bodyMatch ml pp.2 then
          if pp.1 ∉ s then
            if titleMatch ml pp.2 then s ∪ {pp.1} else s
          else s
        else s) s =
      s ∪ (L.filter (fun pp => bodyMatch ml pp.2 && titleMatch ml pp.2)).foldr
        (fun pp acc => insert pp.1 acc) ∅ := by
  induction L generalizing s with
  | nil => simp
  | cons pp tl ih =>
    by_cases hb : bodyMatch ml pp.2 = true
    · by_cases ht : titleMatch ml pp.2 = true
      · by_cases hmem : pp.1 ∈ s
        · simp only [List.foldl_cons, List.filter_cons, hb, ht, Bool.and_self, if_true,
            hmem, not_true, if_false, List.foldr_cons]
          rw [ih]
          ext x
          simp only [Finset.mem_union, Finset.mem_insert]
          constructor
          · rintro (hx | hx)
            · exact Or.inl hx
            · exact Or.inr (Or.inr hx)
          · rintro (hx | hx | hx)
            · exact Or.inl hx
            · exact Or.inl (hx ▸ hmem)
            · exact Or.inr hx
        · simp only [List.foldl_cons, List.filter_cons, hb, ht, Bool.and_self, if_true,
            hmem, not_false_iff, List.foldr_cons]
          rw [ih]
          ext x
          simp only [Finset.mem_union, Finset.mem_singleton, Finset.mem_insert]
          tauto
      · simp only [List.foldl_cons, List.filter_cons, hb, ht, Bool.and_false, if_true,
          if_false, List.foldr_cons]
        by_cases hmem : pp.1 ∈ s
        · simp only [hmem, not_true, if_false]
          exact ih s
        · simp only [hmem, not_false_iff, if_true]
          exact ih s
    · simp only [List.foldl_cons, List.filter_cons, hb, Bool.false_and, if_false,
        List.foldr_cons]
      exact ih s

/-- The id set accumulated by `search_policies` is the spec-level union
of keyword matches and heuristic matches. -/
theorem found_eq_relevant (policies : PolicyTable) (ml : String) :
    found_policy_ids policies ml = relevantIds policies ml := by
  unfold found_policy_ids relevantIds keywordMatchIds
  rw [foldl_heur_union, foldl_keyword_union]
  simp

/-- Ids of the looked-up policies are the ids that survive the
loaded-policy restriction, provided the table maps each id to a policy
carrying it. -/
theorem map_id_filterMap_lookup (policies : PolicyTable)
    (hids : ∀ pp ∈ policies, pp.2.id = pp.1) (ids : List String) :
    (ids.filterMap (fun pid => policies.lookup pid)).map Policy.id =
      ids.filter (fun pid => (policies.lookup pid).isSome) := by
  induction ids with
  | nil => rfl
  | cons pid tl ih =>
    cases hl : policies.lookup pid with
    | none => simp [List.filterMap_cons, hl, ih]
    | some p =>
      have hmem : (pid, p) ∈ policies := lookup_mem_pair hl
      have hpid : p.id = pid := hids (pid, p) hmem
      simp [List.filterMap_cons, hl, ih, hpid]

/-- Claim C7: `search_policies` returns exactly the loaded policies whose
ids lie in the union of the keyword-table matches and the body/title
heuristic matches, with no duplicates, sorted by id ascending, truncated
to `max_results`. -/
theorem search_policies_spec (policies : PolicyTable) (message : String) (max_results : ℕ)
    (hids : ∀ pp ∈ policies, pp.2.id = pp.1) :
    search_policies policies message max_results =
      (((relevantIds policies (pyLower message)).sort (· ≤ ·)).filterMap
        (fun pid => policies.lookup pid)).take max_results
    ∧ (search_policies policies message max_results).length ≤ max_results
    ∧ ((search_policies policies message max_results).map Policy.id).Sorted (· < ·)
    ∧ (∀ p ∈ search_policies policies message max_results,
        (p.id, p) ∈ policies ∧ p.id ∈ relevantIds policies (pyLower message)) := by
  have hmain : search_policies policies message max_results =
      (((relevantIds policies (pyLower message)).sort (· ≤ ·)).filterMap
        (fun pid => policies.lookup pid)).take max_results := by
    unfold search_policies
    dsimp only
    rw [found_eq_relevant]
  refine ⟨hmain, ?_, ?_, ?_⟩
  · rw [hmain]
    exact List.length_take_le _ _
  · rw [hmain, List.map_take, map_id_filterMap_lookup policies hids]
    exact List.Pairwise.sublist (List.take_sublist _ _)
      (List.Sorted.filter _ (Finset.sort_sorted_lt _))
  · intro p hp
    rw [hmain] at hp
    have hp2 := List.mem_of_mem_take hp
    obtain ⟨pid, hpid_mem, hlk⟩ := List.mem_filterMap.mp hp2
    have hpair : (pid, p) ∈ policies := lookup_mem_pair hlk
    have hpid : p.id = pid := hids (pid, p) hpair
    subst hpid
    exact ⟨hpair, (Finset.mem_sort (α := String) (· ≤ ·)).mp hpid_mem⟩

/-- Concrete instantiation of C7: on a one-policy table the search
respects the `max_results` bound. -/
theorem search_policies_spec_witness :
    (search_policies [("POLICY-018",
        ⟨"POLICY-018", "Branch Hours", "standard hours info", "Service"⟩)]
      "What are your branch hours" 3).length ≤ 3 :=
  (search_policies_spec
    [("POLICY-018", ⟨"POLICY-018", "Branch Hours", "standard hours info", "Service"⟩)]
    "What are your branch hours" 3 (by decide)).2.1

/-- Claim C9: for a ticket whose metadata survives the JSON encode/decode
pair (that is, it is JSON-serializable) and whose timestamps survive the
ISO format/parse pair, `Ticket.from_dict` inverts `Ticket.to_dict` field
for field, including the three enum fields and the metadata mapping. -/
theorem ticket_roundtrip_spec (t : Ticket)
    (jdumps : List (String × Json) → String) (jloads : String → List (String × Json))
    (iso : ℤ → String) (fromiso : String → ℤ)
    (hmeta : jloads (jdumps t.metadata) = t.metadata)
    (hne : jdumps t.metadata ≠ "")
    (hiso1 : fromiso (iso t.created_at) = t.created_at)
    (hiso2 : fromiso (iso t.updated_at) = t.updated_at)
    (hiso3 : ∀ d, t.resolved_at = some d → fromiso (iso d) = d)
    (hisone : ∀ d, t.resolved_at = some d → iso d ≠ "") :
    Ticket.from_dict jloads fromiso (Ticket.to_dict jdumps iso t) = some t := by
  obtain ⟨cid, cmsg, cat, st, pri, ar, hag, meta, tid, ca, ua, ra⟩ := t
  unfold Ticket.to_dict Ticket.from_dict
  dsimp only at hmeta hne hiso1 hiso2 hiso3 hisone ⊢
  have hcat : MessageCategory.fromValue cat.value = some cat := by cases cat <;> rfl
  have hst : TicketStatus.fromValue st.value = some st := by cases st <;> rfl
  have hpri : TicketPriority.fromValue pri.value = some pri := by cases pri <;> rfl
  rw [hcat, hst, hpri]
  dsimp only
  rw [if_pos hne, hmeta, hiso1, hiso2]
  cases ra with
  | none => rfl
  | some d =>
    simp only [Option.map_some']
    rw [if_pos (hisone d rfl), hiso3 d rfl]

/-- Concrete instantiation of C9: a fully populated ticket round-trips
through `to_dict`/`from_dict` with encode/decode primitives that invert
each other on its values. -/
theorem ticket_roundtrip_spec_witness :
    Ticket.from_dict (fun _ => [("a", Json.str "b")]) (fun _ => 5)
      (Ticket.to_dict (fun _ => "J") (fun _ => "T")
        ⟨"c1", "m1", .NEGATIVE, .ESCALATED, .CRITICAL, some "resp", some "negative_handler",
          [("a", Json.str "b")], "id1", 5, 5, some 5⟩) =
      some ⟨"c1", "m1", .NEGATIVE, .ESCALATED, .CRITICAL, some "resp", some "negative_handler",
        [("a", Json.str "b")], "id1", 5, 5, some 5⟩ :=
  ticket_roundtrip_spec
    ⟨"c1", "m1", .NEGATIVE, .ESCALATED, .CRITICAL, some "resp", some "negative_handler",
      [("a", Json.str "b")], "id1", 5, 5, some 5⟩
    (fun _ => "J") (fun _ => [("a", Json.str "b")]) (fun _ => "T") (fun _ => 5)
    rfl (by decide) rfl rfl (fun d hd => by cases hd; rfl) (fun d hd => by cases hd; decide)
